import Mathlib

/-!
Verification development for an OAuth proxy server (TypeScript sources:
`src/oauth/modelMap.ts` + token manager, `src/oauth/requestTransformer.ts`,
`src/oauth/responseHandler.ts`, and the HTTP server entry point).

The embedding is shallow: JavaScript runtime values appearing in request and
response bodies are modelled by the inductive type `JVal`; JavaScript objects
are association lists in insertion order (JavaScript objects never hold a
duplicate key, and property update keeps the key position while a new key is
appended, which `setF` mirrors).  The JavaScript builtins that the sources
call — `JSON.parse` and the base64 + JSON decoding of a JWT payload segment —
are not part of this repository, so they are taken as function parameters
(`jparse`, `payloadOf`); every structure the repository itself builds on top
of them (splitting, prefix tests, field access, truthiness) is translated
directly from the source.
-/

set_option maxRecDepth 20000

namespace CodexProxy

/-- JSON-like runtime value (numbers as integers: no claim performs numeric
arithmetic on body fields, they are only carried, compared and deleted). -/
inductive JVal where
  | null : JVal
  | bool : Bool → JVal
  | num : Int → JVal
  | str : String → JVal
  | arr : List JVal → JVal
  | obj : List (String × JVal) → JVal

/-- A JavaScript object: association list of fields in insertion order. -/
abbrev Body := List (String × JVal)

/-- Property read `o[k]`: first binding of `k` (objects have no duplicates). -/
def lookupF : Body → String → Option JVal
  | [], _ => none
  | (k', v) :: rest, k => if k' = k then some v else lookupF rest k

/-- Property write `o[k] = v`: update in place if the key exists, else append
(JavaScript insertion-order semantics). -/
def setF : Body → String → JVal → Body
  | [], k, v => [(k, v)]
  | (k', v') :: rest, k, v =>
    if k' = k then (k, v) :: rest else (k', v') :: setF rest k v

/-- Property delete `delete o[k]`. -/
def deleteF (b : Body) (k : String) : Body :=
  b.filter (fun e => e.1 ≠ k)

/-- JavaScript falsiness restricted to JSON values: `null`, `false`, `0` and
`""` are falsy; arrays and objects (even empty) are truthy. -/
def jsFalsy : JVal → Bool
  | .null => true
  | .bool b => !b
  | .num n => n = 0
  | .str s => s = ""
  | .arr _ => false
  | .obj _ => false

/-- Truthiness of an optional property (`undefined` is falsy). -/
def jsTruthyOpt : Option JVal → Bool
  | none => false
  | some v => !jsFalsy v

/-- Field access on an arbitrary value: `v.k` is `undefined` unless `v` is an
object carrying the key. -/
def objField (v : JVal) (k : String) : Option JVal :=
  match v with
  | .obj fs => lookupF fs k
  | _ => none

/-- `x === true` on an optional property. -/
def isTrueField (b : Body) (k : String) : Bool :=
  match lookupF b k with
  | some (.bool true) => true
  | _ => false

-- ---------------------------------------------------------------------------
-- Character-list string helpers (the embedding evaluates these in the kernel)
-- ---------------------------------------------------------------------------

/-- `text.split(sep)` for a one-character separator, JavaScript semantics:
the result is never empty and separators at the ends produce empty groups. -/
def splitOnChar (sep : Char) : List Char → List (List Char)
  | [] => [[]]
  | c :: cs =>
    if c = sep then [] :: splitOnChar sep cs
    else
      match splitOnChar sep cs with
      | [] => [[c]]
      | g :: gs => (c :: g) :: gs

/-- ASCII lowercasing, `text.toLowerCase()` on the ASCII strings the proxy
compares (`Char.toLower` only maps `A`–`Z`, which covers every marker and
model name in the sources). -/
def lowerL (l : List Char) : List Char := l.map Char.toLower

/-- Substring test `haystack.includes(pat)` / regex alternative matching. -/
def containsSub (l pat : List Char) : Bool :=
  l.tails.any (fun t => pat.isPrefixOf t)

-- ---------------------------------------------------------------------------
-- Model normalization (src/oauth/modelMap.ts)
-- ---------------------------------------------------------------------------

/-- `MODEL_MAP` from `modelMap.ts`, in declaration order. -/
def MODEL_MAP : List (String × String) := [
  ("gpt-5.1-codex", "gpt-5.1-codex"),
  ("gpt-5.1-codex-low", "gpt-5.1-codex"),
  ("gpt-5.1-codex-medium", "gpt-5.1-codex"),
  ("gpt-5.1-codex-high", "gpt-5.1-codex"),
  ("gpt-5.1-codex-max", "gpt-5.1-codex-max"),
  ("gpt-5.1-codex-max-low", "gpt-5.1-codex-max"),
  ("gpt-5.1-codex-max-medium", "gpt-5.1-codex-max"),
  ("gpt-5.1-codex-max-high", "gpt-5.1-codex-max"),
  ("gpt-5.1-codex-max-xhigh", "gpt-5.1-codex-max"),
  ("gpt-5.2", "gpt-5.2"),
  ("gpt-5.2-none", "gpt-5.2"),
  ("gpt-5.2-low", "gpt-5.2"),
  ("gpt-5.2-medium", "gpt-5.2"),
  ("gpt-5.2-high", "gpt-5.2"),
  ("gpt-5.2-xhigh", "gpt-5.2"),
  ("gpt-5.2-codex", "gpt-5.2-codex"),
  ("gpt-5.2-codex-low", "gpt-5.2-codex"),
  ("gpt-5.2-codex-medium", "gpt-5.2-codex"),
  ("gpt-5.2-codex-high", "gpt-5.2-codex"),
  ("gpt-5.2-codex-xhigh", "gpt-5.2-codex"),
  ("gpt-5.1-codex-mini", "gpt-5.1-codex-mini"),
  ("gpt-5.1-codex-mini-medium", "gpt-5.1-codex-mini"),
  ("gpt-5.1-codex-mini-high", "gpt-5.1-codex-mini"),
  ("gpt-5.1", "gpt-5.1"),
  ("gpt-5.1-none", "gpt-5.1"),
  ("gpt-5.1-low", "gpt-5.1"),
  ("gpt-5.1-medium", "gpt-5.1"),
  ("gpt-5.1-high", "gpt-5.1"),
  ("gpt-5.1-chat-latest", "gpt-5.1"),
  ("gpt-5.3", "gpt-5.3"),
  ("gpt-5.3-none", "gpt-5.3"),
  ("gpt-5.3-low", "gpt-5.3"),
  ("gpt-5.3-medium", "gpt-5.3"),
  ("gpt-5.3-high", "gpt-5.3"),
  ("gpt-5.3-xhigh", "gpt-5.3"),
  ("gpt-5.3-codex", "gpt-5.3-codex"),
  ("gpt-5.3-codex-low", "gpt-5.3-codex"),
  ("gpt-5.3-codex-medium", "gpt-5.3-codex"),
  ("gpt-5.3-codex-high", "gpt-5.3-codex"),
  ("gpt-5.3-codex-xhigh", "gpt-5.3-codex"),
  ("gpt-5-codex", "gpt-5.1-codex"),
  ("codex-mini-latest", "gpt-5.1-codex-mini"),
  ("gpt-5-codex-mini", "gpt-5.1-codex-mini"),
  ("gpt-5-codex-mini-medium", "gpt-5.1-codex-mini"),
  ("gpt-5-codex-mini-high", "gpt-5.1-codex-mini"),
  ("gpt-5", "gpt-5.1"),
  ("gpt-5-mini", "gpt-5.1"),
  ("gpt-5-nano", "gpt-5.1")]

/-- Exact lookup `MODEL_MAP[modelId]` (own keys; the JavaScript record would
also surface inherited prototype properties for keys like `"toString"`, a
corner no claim touches and not modelled). -/
def lookupMapExact (modelId : List Char) : Option String :=
  (MODEL_MAP.find? (fun e => e.1.toList == modelId)).map (fun e => e.2)

/-- Case-insensitive scan: first key whose lowercasing equals `lower`
(`Object.keys(...).find(...)`, declaration order). -/
def lookupMapCI (lower : List Char) : Option String :=
  (MODEL_MAP.find? (fun e => lowerL e.1.toList == lower)).map (fun e => e.2)

/-- The lookup-and-fallback tail of `normalizeModel`, applied after the
provider-prefix strip: exact lookup, case-insensitive lookup, ordered
substring patterns, then pass-through. -/
def normalizeFromId (modelId : List Char) : List Char :=
  match lookupMapExact modelId with
  | some v => v.toList
  | none =>
    let lower := lowerL modelId
    match lookupMapCI lower with
    | some v => v.toList
    | none =>
      if containsSub lower "gpt-5.3-codex".toList
          || containsSub lower "gpt 5.3 codex".toList then "gpt-5.3-codex".toList
      else if containsSub lower "gpt-5.3".toList
          || containsSub lower "gpt 5.3".toList then "gpt-5.3".toList
      else if containsSub lower "gpt-5.2-codex".toList
          || containsSub lower "gpt 5.2 codex".toList then "gpt-5.2-codex".toList
      else if containsSub lower "gpt-5.2".toList
          || containsSub lower "gpt 5.2".toList then "gpt-5.2".toList
      else if containsSub lower "gpt-5.1-codex-max".toList
          || containsSub lower "gpt 5.1 codex max".toList then "gpt-5.1-codex-max".toList
      else if containsSub lower "gpt-5.1-codex-mini".toList
          || containsSub lower "gpt 5.1 codex mini".toList then "gpt-5.1-codex-mini".toList
      else if containsSub lower "codex-mini-latest".toList
          || containsSub lower "gpt-5-codex-mini".toList
          || containsSub lower "gpt 5 codex mini".toList then "gpt-5.1-codex-mini".toList
      else if containsSub lower "gpt-5.1-codex".toList
          || containsSub lower "gpt 5.1 codex".toList then "gpt-5.1-codex".toList
      else if containsSub lower "gpt-5.1".toList
          || containsSub lower "gpt 5.1".toList then "gpt-5.1".toList
      else modelId

/-- `model.split("/").pop()`: the last group of the slash split. -/
def lastPart (l : List Char) : List Char :=
  (splitOnChar '/' l).getLastD []

/-- `normalizeModel(model: string | undefined)`: `undefined`/empty fall back
to the default model, otherwise strip the provider slash segment and run the
lookup chain. -/
def normalizeModel (model : Option (List Char)) : List Char :=
  match model with
  | none => "gpt-5.1".toList
  | some m =>
    if m.isEmpty then "gpt-5.1".toList
    else
      let modelId := if m.contains '/' then lastPart m else m
      normalizeFromId modelId

/-- `normalizeModel` on `String`s, as the request transformer calls it. -/
def normalizeModelS (model : Option String) : String :=
  (normalizeModel (model.map String.toList)).asString

-- ---------------------------------------------------------------------------
-- Request transformation (src/oauth/requestTransformer.ts)
-- ---------------------------------------------------------------------------

/-- `item.type !== "item_reference"`, negated: property `type` of a non-object
is `undefined` and never strictly equal to a string. -/
def isItemRef (v : JVal) : Bool :=
  match objField v "type" with
  | some (.str s) => s = "item_reference"
  | _ => false

/-- The per-item map of `filterInput`: when `item.id` is truthy, shallow-copy
the item without the `id` key (`const \x7bid, ...rest\x7d = item`); otherwise the
item is returned untouched (a falsy `id` — empty string, `0`, `false`,
`null` — is kept). -/
def stripId (v : JVal) : JVal :=
  match v with
  | .obj fs => if jsTruthyOpt (lookupF fs "id") then .obj (deleteF fs "id") else v
  | _ => v

/-- `filterInput`: drop `item_reference` items, strip truthy `id`s. -/
def filterInput (input : List JVal) : List JVal :=
  (input.filter (fun it => !isItemRef it)).map stripId

/-- `normalizeModel(body.model)` at the runtime value level.  A falsy value
(`undefined`, `null`, `false`, `0`, `""`) hits the `!model` default; a string
runs the normalizer.  A truthy non-string would make the JavaScript go
through property accesses whose outcome is not JSON-expressible (for numbers
and booleans a `TypeError` is thrown); those are modelled as an error. -/
def normalizeModelField : Option JVal → Except String String
  | none => .ok (normalizeModelS none)
  | some (.str s) => .ok (normalizeModelS (some s))
  | some .null => .ok (normalizeModelS none)
  | some (.bool false) => .ok (normalizeModelS none)
  | some (.num 0) => .ok (normalizeModelS none)
  | some _ => .error "TypeError: model is not a string"

/-- Default reasoning record `\x7b effort: "medium", summary: "auto" \x7d`. -/
def reasoningDefault : JVal :=
  .obj [("effort", .str "medium"), ("summary", .str "auto")]

/-- The reasoning-defaults step: a falsy `reasoning` is replaced by the
default record; an object gets each missing-or-falsy field defaulted in
place; a truthy non-object makes the strict-mode property assignment throw,
modelled as an error. -/
def reasoningStep (b : Body) : Except String Body :=
  match lookupF b "reasoning" with
  | none => .ok (setF b "reasoning" reasoningDefault)
  | some v =>
    if jsFalsy v then .ok (setF b "reasoning" reasoningDefault)
    else
      match v with
      | .obj fs =>
        let fs1 := if jsTruthyOpt (lookupF fs "effort") then fs
                   else setF fs "effort" (.str "medium")
        let fs2 := if jsTruthyOpt (lookupF fs1 "summary") then fs1
                   else setF fs1 "summary" (.str "auto")
        .ok (setF b "reasoning" (.obj fs2))
      | _ => .error "TypeError: reasoning is not an object"

/-- The literal include entry required for `store=false`. -/
def encContent : String := "reasoning.encrypted_content"

/-- The include step: absent or `null` creates the one-element list
(`body.include ?? []` spread); an array lacking the entry gets it appended;
an array containing it is untouched.  Other falsy or truthy non-array values
make the JavaScript spread or `.includes` call throw (or, for a string,
splice characters — not JSON-expressible), modelled as an error. -/
def includeStep (b : Body) : Except String Body :=
  match lookupF b "include" with
  | none => .ok (setF b "include" (.arr [.str encContent]))
  | some .null => .ok (setF b "include" (.arr [.str encContent]))
  | some (.arr xs) =>
    if xs.any (fun v => match v with | .str s => s = encContent | _ => false) then .ok b
    else .ok (setF b "include" (.arr (xs ++ [.str encContent])))
  | some _ => .error "TypeError: include is not an array"

/-- `if (Array.isArray(body.input)) body.input = filterInput(body.input)`:
only an array-valued `input` is rewritten. -/
def inputStep (b : Body) : Body :=
  match lookupF b "input" with
  | some (.arr xs) => setF b "input" (.arr (filterInput xs))
  | _ => b

/-- The first three mutations of the transform: `body.model = <normalized>`,
`body.store = false`, `body.stream = true`, in source order. -/
def forcedFlags (body : Body) (modelNew : String) : Body :=
  setF (setF (setF body "model" (.str modelNew)) "store" (.bool false)) "stream" (.bool true)

/-- `transformRequestBody`: capture the original `stream === true`, normalize
the model, force `store = false` and `stream = true`, filter an array-valued
`input`, default `reasoning` per field, ensure the `include` entry, delete
the legacy token-limit fields.  Mutation order follows the source. -/
def transformRequestBody (body : Body) : Except String (Body × Bool) :=
  match normalizeModelField (lookupF body "model") with
  | .error e => .error e
  | .ok modelNew =>
    match reasoningStep (inputStep (forcedFlags body modelNew)) with
    | .error e => .error e
    | .ok b5 =>
      match includeStep b5 with
      | .error e => .error e
      | .ok b6 =>
        .ok (deleteF (deleteF b6 "max_output_tokens") "max_completion_tokens",
             isTrueField body "stream")

-- ---------------------------------------------------------------------------
-- Token manager (src/oauth/tokenManager.ts)
-- ---------------------------------------------------------------------------

/-- The nested claim object under the `https://api.openai.com/auth` key. -/
structure AuthClaim where
  chatgptAccountId : Option String
  deriving Repr, DecidableEq

/-- Decoded JWT payload: the fields the token manager reads.  `exp` is the
expiry-in-seconds claim (`none` when absent or non-numeric). -/
structure JWTPayload where
  authClaim : Option AuthClaim
  exp : Option Int
  deriving Repr, DecidableEq

/-- In-memory token state, mutated in place by the refresh operations. -/
structure TokenState where
  accessToken : String
  refreshToken : String
  expires : Int
  accountId : String
  relayUrl : Option String := none
  relayKey : Option String := none
  deriving Repr, DecidableEq

/-- Tagged outcome of `refreshAccessToken`. -/
inductive TokenRefreshResult where
  | success (access refresh : String) (expires : Int)
  | failed
  deriving Repr, DecidableEq

/-- The auth server's JSON reply to the token-endpoint POST, as observed by
the repository (field absent or of the wrong runtime type ↦ `none`). -/
structure AuthServerResponse where
  ok : Bool
  accessTokenField : Option String
  refreshTokenField : Option String
  expiresInField : Option Int
  deriving Repr, DecidableEq

/-- The relay's JSON reply to the bearer GET. -/
structure RelayResponse where
  ok : Bool
  accessTokenField : Option String
  expiresAtField : Option Int
  deriving Repr, DecidableEq

section TokenOps

/- `payloadOf` stands for the JavaScript
`JSON.parse(Buffer.from(seg, "base64").toString("utf-8"))` applied to the
middle JWT segment — an external builtin pipeline; `none` models any throw
caught by the `try`/`catch` in `decodeJWT` or a non-object parse result. -/
variable (payloadOf : String → Option JWTPayload)

/-- `decodeJWT`: split on dots, require exactly three segments, decode the
middle one; any malformation yields `none` rather than an error. -/
def decodeJWT (token : String) : Option JWTPayload :=
  let parts := splitOnChar '.' token.toList
  if parts.length = 3 then payloadOf ((parts.get? 1).getD []).asString
  else none

/-- The error message `getAccountId` throws with. -/
def accountIdError : String :=
  "Failed to extract chatgpt_account_id from access token"

/-- `getAccountId`: decode the token and extract the nested account claim;
a missing payload, missing claim, or falsy (empty) account id throws. -/
def getAccountId (accessToken : String) : Except String String :=
  match decodeJWT payloadOf accessToken with
  | none => .error accountIdError
  | some payload =>
    match payload.authClaim with
    | none => .error accountIdError
    | some claim =>
      match claim.chatgptAccountId with
      | none => .error accountIdError
      | some aid => if aid = "" then .error accountIdError else .ok aid

/-- `loadTokens`: expiry from the `exp` claim (seconds × 1000) when that
claim is truthy, else `0` (already expired); account id derived from the
access token, a failure aborting construction. -/
def loadTokens (accessToken refreshToken : String) : Except String TokenState :=
  let payload := decodeJWT payloadOf accessToken
  let expires : Int :=
    match payload with
    | some p => match p.exp with
                | some e => if e = 0 then 0 else e * 1000
                | none => 0
    | none => 0
  match getAccountId payloadOf accessToken with
  | .error e => .error e
  | .ok accountId =>
    .ok { accessToken := accessToken, refreshToken := refreshToken,
          expires := expires, accountId := accountId }

/-- `shouldRefreshToken`: refresh 60 s before actual expiry
(`state.expires - 60_000 < Date.now()`, exact millisecond integers). -/
def shouldRefreshToken (state : TokenState) (now : Int) : Bool :=
  state.expires - 60000 < now

/-- `refreshAccessToken` given the auth server's reply (`none` = network
error, caught): non-OK statuses, missing/falsy token fields and a
non-numeric `expires_in` all collapse to the `failed` tag. -/
def refreshAccessToken (resp : Option AuthServerResponse) (now : Int) :
    TokenRefreshResult :=
  match resp with
  | none => .failed
  | some r =>
    if !r.ok then .failed
    else
      match r.accessTokenField, r.refreshTokenField, r.expiresInField with
      | some a, some rt, some ei =>
        if a = "" ∨ rt = "" then .failed
        else .success a rt (now + ei * 1000)
      | _, _, _ => .failed

/-- Truthiness of the optional relay URL (`if (state.relayUrl)`): present and
non-empty. -/
def relayConfigured (s : TokenState) : Bool :=
  match s.relayUrl with
  | none => false
  | some u => u ≠ ""

/-- `fetchFromRelay`, mutation order as in the source: on a valid relay
reply, `accessToken` and `expires` are stored first and the account id is
derived afterwards — so a derivation failure throws out of a state that
already holds the new token.  The error branch carries the state the
operation leaves behind. -/
def fetchFromRelay (state : TokenState) (resp : RelayResponse) :
    Except (String × TokenState) TokenState :=
  if !resp.ok then .error ("Failed to fetch token from relay", state)
  else
    match resp.accessTokenField, resp.expiresAtField with
    | some tok, some ea =>
      if tok = "" then
        .error ("Relay response missing access_token or expires_at", state)
      else
        let state1 := { state with accessToken := tok, expires := ea }
        match getAccountId payloadOf tok with
        | .ok aid => .ok { state1 with accountId := aid }
        | .error e => .error (e, state1)
    | _, _ => .error ("Relay response missing access_token or expires_at", state)

/-- `ensureValidToken`: no-op while the token is fresh; relay mode delegates
to `fetchFromRelay`; otherwise exchange the refresh token, auth-server
mutation order again storing the new access/refresh/expiry triple before the
account id is derived. -/
def ensureValidToken (state : TokenState) (now : Int) (relayResp : RelayResponse)
    (authResp : Option AuthServerResponse) : Except (String × TokenState) TokenState :=
  if !shouldRefreshToken state now then .ok state
  else if relayConfigured state then fetchFromRelay payloadOf state relayResp
  else
    match refreshAccessToken authResp now with
    | .failed => .error ("Failed to refresh OAuth access token", state)
    | .success access refresh expires =>
      let state1 :=
        { state with accessToken := access, refreshToken := refresh, expires := expires }
      match getAccountId payloadOf access with
      | .ok aid => .ok { state1 with accountId := aid }
      | .error e => .error (e, state1)

/-- The TokenState binding invariant: the stored account identifier is the
one derived from the currently stored access token. -/
def accountInvariant (s : TokenState) : Prop :=
  getAccountId payloadOf s.accessToken = .ok s.accountId

end TokenOps

-- ---------------------------------------------------------------------------
-- Response handling (src/oauth/responseHandler.ts)
-- ---------------------------------------------------------------------------

/-- Outcome of reading the full upstream body: the buffered text, or a read
error thrown by the reader mid-transfer. -/
inductive BodyRead where
  | ok (text : String)
  | readError
  deriving Repr, DecidableEq

/-- The upstream `fetch` `Response` as the handler consumes it: a status and
an optional body (`none` = `body === null`). -/
structure Upstream where
  status : Nat
  body : Option BodyRead
  deriving Repr, DecidableEq

/-- `Response.ok`: status in the 2xx range. -/
def Upstream.isOk (u : Upstream) : Bool :=
  200 ≤ u.status && u.status ≤ 299

/-- `await upstream.text().catch(() => "")`: the buffered text, with a null
body reading as `""` and a read failure caught to `""`. -/
def upstreamText (u : Upstream) : String :=
  match u.body with
  | none => ""
  | some (.ok t) => t
  | some .readError => ""

/-- What the handler writes to the downstream `ServerResponse`: either a
head-plus-body reply, or the streaming passthrough that copies upstream
chunks verbatim after a 200 event-stream head. -/
inductive DownstreamOut where
  | reply (status : Nat) (contentType : String) (body : String)
  | piped (u : Upstream)
  deriving Repr, DecidableEq

/-- `isUsageLimitBody`: case-insensitive substring test against the four
regex alternatives (none contains a metacharacter, so the regex is a plain
any-of-substrings match). -/
def isUsageLimitBody (body : String) : Bool :=
  let haystack := lowerL body.toList
  containsSub haystack "usage_limit_reached".toList
    || containsSub haystack "usage_not_included".toList
    || containsSub haystack "rate_limit_exceeded".toList
    || containsSub haystack "usage limit".toList

/-- JSON string escaping as `JSON.stringify` performs it: quote, backslash
and the control characters. -/
def escapeChar (c : Char) : List Char :=
  if c = '"' then ['\\', '"']
  else if c = '\\' then ['\\', '\\']
  else if c = '\n' then ['\\', 'n']
  else if c = '\r' then ['\\', 'r']
  else if c = '\t' then ['\\', 't']
  else if c = '\x08' then ['\\', 'b']
  else if c = '\x0c' then ['\\', 'f']
  else if c.toNat < 32 then
    ['\\', 'u', '0', '0',
     (Nat.digitChar (c.toNat / 16)), (Nat.digitChar (c.toNat % 16))]
  else [c]

/-- `JSON.stringify` of a string value. -/
def quoteJ (s : String) : String :=
  ('"' :: (s.toList.flatMap escapeChar) ++ ['"']).asString

mutual

/-- `JSON.stringify` of a runtime value (integers only; `undefined` never
reaches this point in the sources). -/
def stringifyJ : JVal → String
  | .null => "null"
  | .bool true => "true"
  | .bool false => "false"
  | .num n => toString n
  | .str s => quoteJ s
  | .arr xs => "[" ++ stringifyArr xs ++ "]"
  | .obj fs => "\x7b" ++ stringifyObj fs ++ "\x7d"

def stringifyArr : List JVal → String
  | [] => ""
  | [x] => stringifyJ x
  | x :: y :: rest => stringifyJ x ++ "," ++ stringifyArr (y :: rest)

def stringifyObj : List (String × JVal) → String
  | [] => ""
  | [(k, v)] => quoteJ k ++ ":" ++ stringifyJ v
  | (k, v) :: e :: rest => quoteJ k ++ ":" ++ stringifyJ v ++ "," ++ stringifyObj (e :: rest)

end

/-- The SSE data-line marker the parser tests with `startsWith`. -/
def dataMarker : List Char := "data: ".toList

/-- `data.type === "response.done" || data.type === "response.completed"`. -/
def isTerminalEvent (data : JVal) : Bool :=
  match objField data "type" with
  | some (.str s) => s = "response.done" || s = "response.completed"
  | _ => false

section SseOps

/- `jparse` stands for the JavaScript `JSON.parse` builtin applied to the
text after the `data: ` marker; `none` models a parse throw, caught and
skipped by the loop. -/
variable (jparse : String → Option JVal)

/-- The line walk of `parseSseStream`: first `data: ` line that parses to a
terminal event returns that event's `response` property (which may itself be
absent, i.e. `undefined` — the outer `some` still stops the walk); reaching
the end returns `null`. -/
def parseSseLines : List (List Char) → Option (Option JVal)
  | [] => none
  | line :: rest =>
    if dataMarker.isPrefixOf line then
      match jparse (line.drop 6).asString with
      | some data =>
        if isTerminalEvent data then some (objField data "response")
        else parseSseLines rest
      | none => parseSseLines rest
    else parseSseLines rest

/-- `parseSseStream`: split the buffered text on newlines and walk. -/
def parseSseStream (sseText : String) : Option (Option JVal) :=
  parseSseLines jparse (splitOnChar '\n' sseText.toList)

/-- `convertSseToJson` (buffering mode): no body → 502; a reader failure →
502; otherwise extract the final response and reply 200 JSON, falling back
to the raw buffered text with the event-stream content type whenever
`finalResponse != null` fails (not found, `undefined` or `null`). -/
def convertSseToJson (u : Upstream) : DownstreamOut :=
  match u.body with
  | none =>
    .reply 502 "application/json" "\x7b\"error\":\"No response body from upstream\"\x7d"
  | some .readError =>
    .reply 502 "application/json" "\x7b\"error\":\"Failed to read upstream response\"\x7d"
  | some (.ok fullText) =>
    match parseSseStream jparse fullText with
    | some (some v) =>
      match v with
      | .null => .reply 200 "text/event-stream; charset=utf-8" fullText
      | _ => .reply 200 "application/json; charset=utf-8" (stringifyJ v)
    | _ => .reply 200 "text/event-stream; charset=utf-8" fullText

/-- `handleUpstreamResponse`: 404 with usage-limit remap first, then verbatim
error forwarding, then the streaming/buffering split. -/
def handleUpstreamResponse (u : Upstream) (wasStreaming : Bool) : DownstreamOut :=
  if u.status = 404 then
    let body := upstreamText u
    .reply (if isUsageLimitBody body then 429 else 404) "application/json" body
  else if !u.isOk then
    .reply u.status "application/json" (upstreamText u)
  else if wasStreaming then .piped u
  else convertSseToJson jparse u

-- ---------------------------------------------------------------------------
-- Specification-side restatements (for the refinement theorems)
-- ---------------------------------------------------------------------------

/-- Modelled from the spec's buffering-mode words: the events obtained by
taking the lines, considering only those with the `data: ` marker, and
parsing the remainder of each as JSON (skipping failures). -/
def specParsedEvents (t : String) : List JVal :=
  (splitOnChar '\n' t.toList).filterMap
    (fun line => if dataMarker.isPrefixOf line then jparse (line.drop 6).asString else none)

/-- Modelled from the spec's words: the first successfully parsed event whose
type is a terminal marker. -/
def specFirstTerminal (t : String) : Option JVal :=
  (specParsedEvents jparse t).find? isTerminalEvent

/-- Modelled from the (amended) spec's words for buffering mode: 502 without
a body or on a read failure; otherwise, if the first terminal event exists
and carries a present, non-null `response`, serialize it as one JSON
document with status 200; in every other case degrade to the raw buffered
text with status 200 and the event-stream content type. -/
def specConvert (u : Upstream) : DownstreamOut :=
  match u.body with
  | none =>
    .reply 502 "application/json" "\x7b\"error\":\"No response body from upstream\"\x7d"
  | some .readError =>
    .reply 502 "application/json" "\x7b\"error\":\"Failed to read upstream response\"\x7d"
  | some (.ok t) =>
    match specFirstTerminal jparse t with
    | some d =>
      match objField d "response" with
      | some v =>
        match v with
        | .null => .reply 200 "text/event-stream; charset=utf-8" t
        | _ => .reply 200 "application/json; charset=utf-8" (stringifyJ v)
      | none => .reply 200 "text/event-stream; charset=utf-8" t
    | none => .reply 200 "text/event-stream; charset=utf-8" t

-- ---------------------------------------------------------------------------
-- The server request handler (handleRequest in the server entry point)
-- ---------------------------------------------------------------------------

/-- `req.url?.startsWith("/v1/responses")` (an absent url reads as a failed
test). -/
def urlHasRoute : Option String → Bool
  | none => false
  | some u => "/v1/responses".toList.isPrefixOf u.toList

/-- One inbound request together with the outcomes of the external effects
the handler awaits: the parsed JSON body (`none` = `JSON.parse` threw), the
token-validity outcome, and the upstream `fetch` outcome (`none` = network
error). -/
structure ProxyCtx where
  method : Option String
  url : Option String
  parsedBody : Option Body
  tokenOk : Bool
  upstream : Option Upstream

/-- `handleRequest`: route gate, body parse, token check, transform, forward,
then response adaptation; each failure is converted to its JSON error reply
(a transform throw is caught by the server's boundary and becomes the 500
reply). -/
def handleRequest (ctx : ProxyCtx) : DownstreamOut :=
  if ctx.method ≠ some "POST" ∨ urlHasRoute ctx.url = false then
    .reply 404 "application/json" "\x7b\"error\":\"Not found\"\x7d"
  else
    match ctx.parsedBody with
    | none => .reply 400 "application/json" "\x7b\"error\":\"Invalid JSON body\"\x7d"
    | some body =>
      if !ctx.tokenOk then
        .reply 401 "application/json"
          "\x7b\"error\":\"OAuth token refresh failed. Re-authenticate.\"\x7d"
      else
        match transformRequestBody body with
        | .error _ =>
          .reply 500 "application/json" "\x7b\"error\":\"Internal proxy error\"\x7d"
        | .ok (_, wasStreaming) =>
          match ctx.upstream with
          | none =>
            .reply 502 "application/json" "\x7b\"error\":\"Failed to reach ChatGPT backend\"\x7d"
          | some u => handleUpstreamResponse jparse u wasStreaming

end SseOps

-- ---------------------------------------------------------------------------
-- Concrete fixtures (used by witnesses and counterexamples)
-- ---------------------------------------------------------------------------

/-- A `JSON.parse` stub for runs whose outcome cannot depend on parsing. -/
def jparse0 : String → Option JVal := fun _ => none

/-- The JSON text of a terminal event whose `response` is the JSON `null`. -/
def doneNullText : String := "\x7b\"type\":\"response.done\",\"response\":null\x7d"

/-- The JSON text of a terminal event carrying a real response payload. -/
def doneGoodText : String := "\x7b\"type\":\"response.completed\",\"response\":\x7b\"id\":\"r1\"\x7d\x7d"

/-- A concrete `JSON.parse` table: exactly the two event texts parse, to
their actual JSON values. -/
def jparseT : String → Option JVal := fun s =>
  if s = doneNullText then
    some (.obj [("type", .str "response.done"), ("response", .null)])
  else if s = doneGoodText then
    some (.obj [("type", .str "response.completed"), ("response", .obj [("id", .str "r1")])])
  else none

/-- Buffered SSE text whose only terminal event has a `null` response. -/
def sseNullOnly : String := "data: " ++ doneNullText

/-- Buffered SSE text whose first terminal event has a `null` response and
whose second terminal event carries a real payload. -/
def sseNullThenGood : String := "data: " ++ doneNullText ++ "\n" ++ "data: " ++ doneGoodText

/-- A concrete JWT-payload decoder: only the segment `"payloadA"` decodes,
to a payload with account id `acct-1` and expiry claim `2000`. -/
def testPayloadOf : String → Option JWTPayload := fun s =>
  if s = "payloadA" then some ⟨some ⟨some "acct-1"⟩, some 2000⟩ else none

/-- The state `loadTokens testPayloadOf "h.payloadA.sig" "r"` constructs. -/
def tsGood : TokenState :=
  { accessToken := "h.payloadA.sig", refreshToken := "r", expires := 2000000,
    accountId := "acct-1" }

/-- `tsGood` put into relay mode, as the factory does after `loadTokens`. -/
def tsRelay : TokenState :=
  { tsGood with relayUrl := some "https://relay.example", relayKey := some "k" }

/-- The state `fetchFromRelay` leaves behind when the relay hands out a token
from which no account id can be derived: the new token and expiry are
already stored, the account id is still the old one. -/
def tsBad : TokenState :=
  { tsRelay with accessToken := "garbage", expires := 99 }

/-- The state a successful auth-server refresh of `tsGood` produces at
`now = 3000000` with a 3600 s `expires_in`. -/
def tsRefreshed : TokenState :=
  { accessToken := "h.payloadA.sig", refreshToken := "r2", expires := 6600000,
    accountId := "acct-1" }

/-- States 30 s and 90 s before expiry relative to `now = 1000000`. -/
def ts30 : TokenState :=
  { accessToken := "a", refreshToken := "r", expires := 1030000, accountId := "id-1" }

/-- See `ts30`. -/
def ts90 : TokenState :=
  { accessToken := "a", refreshToken := "r", expires := 1090000, accountId := "id-1" }

/-- A 404 upstream whose body carries a usage-limit marker. -/
def u404usage : Upstream := { status := 404, body := some (.ok "usage_limit_reached: quota") }

/-- Minimal streaming request body. -/
def bodyStream : Body := [("stream", .bool true)]

/-- `transformRequestBody bodyStream` output. -/
def bodyStreamOut : Body :=
  [("stream", .bool true), ("model", .str "gpt-5.1"), ("store", .bool false),
   ("reasoning", reasoningDefault), ("include", .arr [.str encContent])]

/-- A body whose single input item has the falsy id `""`. -/
def bodyEmptyId : Body :=
  [("model", .str "gpt-5.1"),
   ("input", .arr [.obj [("type", .str "message"), ("id", .str "")]])]

/-- `transformRequestBody bodyEmptyId` output: the `id: ""` field survives. -/
def bodyEmptyIdOut : Body :=
  [("model", .str "gpt-5.1"),
   ("input", .arr [.obj [("type", .str "message"), ("id", .str "")]]),
   ("store", .bool false), ("stream", .bool true),
   ("reasoning", reasoningDefault), ("include", .arr [.str encContent])]

/-- The claim's two-item input example: a reference item and a message item
with a truthy id. -/
def exInput : List JVal :=
  [.obj [("type", .str "item_reference"), ("id", .str "a")],
   .obj [("type", .str "message"), ("id", .str "b"), ("text", .str "x")]]

/-- A body carrying `exInput`. -/
def bodyExInput : Body := [("input", .arr exInput)]

/-- `transformRequestBody bodyExInput` output. -/
def bodyExInputOut : Body :=
  [("input", .arr [.obj [("type", .str "message"), ("text", .str "x")]]),
   ("model", .str "gpt-5.1"), ("store", .bool false), ("stream", .bool true),
   ("reasoning", reasoningDefault), ("include", .arr [.str encContent])]

/-- The route-rejection reply. -/
def notFoundReply : DownstreamOut :=
  .reply 404 "application/json" "\x7b\"error\":\"Not found\"\x7d"

/-- A `POST /v1/responses/extra` request whose upstream answers 500 `boom`:
the route gate does not reject it. -/
def ctxExtra : ProxyCtx :=
  { method := some "POST", url := some "/v1/responses/extra",
    parsedBody := some [("model", .str "gpt-5.1")], tokenOk := true,
    upstream := some { status := 500, body := some (.ok "boom") } }

/-- A `GET /v1/responses` request (with benign other inputs). -/
def ctxGet : ProxyCtx :=
  { method := some "GET", url := some "/v1/responses",
    parsedBody := some [("model", .str "gpt-5.1")], tokenOk := true,
    upstream := some { status := 200, body := some (.ok "x") } }

/-- The set of top-level keys `transformRequestBody` is allowed to touch. -/
def recognizedKeys : List String :=
  ["model", "store", "stream", "input", "reasoning", "include",
   "max_output_tokens", "max_completion_tokens"]

/-- Decidable equality on `Except`, so concrete operation outcomes can be
checked by `decide`. -/
instance {ε α : Type} [DecidableEq ε] [DecidableEq α] : DecidableEq (Except ε α) := fun x y =>
  match x, y with
  | .ok a, .ok b =>
    if h : a = b then .isTrue (by rw [h]) else .isFalse (fun he => h (Except.ok.inj he))
  | .error a, .error b =>
    if h : a = b then .isTrue (by rw [h]) else .isFalse (fun he => h (Except.error.inj he))
  | .ok _, .error _ => .isFalse (fun he => Except.noConfusion he)
  | .error _, .ok _ => .isFalse (fun he => Except.noConfusion he)

instance (payloadOf : String → Option JWTPayload) (s : TokenState) :
    Decidable (accountInvariant payloadOf s) :=
  inferInstanceAs (Decidable (getAccountId payloadOf s.accessToken = .ok s.accountId))

-- ---------------------------------------------------------------------------
-- Field lemmas
-- ---------------------------------------------------------------------------

lemma lookupF_setF_self (b : Body) (k : String) (v : JVal) :
    lookupF (setF b k v) k = some v := by
  induction b with
  | nil => simp [setF, lookupF]
  | cons e rest ih =>
    obtain ⟨k', v'⟩ := e
    by_cases h : k' = k
    · simp [setF, h, lookupF]
    · simp [setF, h, lookupF, ih]

lemma lookupF_setF_ne (b : Body) (k k2 : String) (v : JVal) (hne : k2 ≠ k) :
    lookupF (setF b k v) k2 = lookupF b k2 := by
  induction b with
  | nil => simp [setF, lookupF, Ne.symm hne]
  | cons e rest ih =>
    obtain ⟨k', v'⟩ := e
    by_cases h : k' = k
    · subst h
      simp [setF, lookupF, Ne.symm hne]
    · simp [setF, h, lookupF, ih]

lemma lookupF_deleteF_ne (b : Body) (k k2 : String) (hne : k2 ≠ k) :
    lookupF (deleteF b k) k2 = lookupF b k2 := by
  induction b with
  | nil => rfl
  | cons e rest ih =>
    obtain ⟨k', v'⟩ := e
    by_cases h : k' = k
    · subst h
      simp only [deleteF, List.filter_cons] at ih ⊢
      simp only [lookupF, Ne.symm hne, if_false, decide_not]
      simpa [lookupF, Ne.symm hne] using ih
    · simp only [deleteF, List.filter_cons] at ih ⊢
      by_cases h2 : k' = k2
      · subst h2
        simp [lookupF, h]
      · simp only [lookupF, h2, if_false, decide_not]
        simpa [lookupF, h, h2] using ih

lemma isTrueField_iff (b : Body) (k : String) :
    isTrueField b k = true ↔ lookupF b k = some (.bool true) := by
  unfold isTrueField
  rcases hv : lookupF b k with _ | v
  · simp
  · cases v <;> simp_all
    rename_i bv
    cases bv <;> simp

lemma inputStep_lookup_ne (b : Body) (k : String) (hk : k ≠ "input") :
    lookupF (inputStep b) k = lookupF b k := by
  unfold inputStep
  split
  · exact lookupF_setF_ne _ _ _ _ hk
  · rfl

lemma inputStep_lookup_arr (b : Body) (xs : List JVal)
    (h : lookupF b "input" = some (.arr xs)) :
    lookupF (inputStep b) "input" = some (.arr (filterInput xs)) := by
  unfold inputStep
  rw [h]
  exact lookupF_setF_self _ _ _

lemma reasoningStep_lookup_ne (b b' : Body) (k : String)
    (h : reasoningStep b = .ok b') (hk : k ≠ "reasoning") :
    lookupF b' k = lookupF b k := by
  unfold reasoningStep at h
  split at h
  · cases h
    exact lookupF_setF_ne _ _ _ _ hk
  · split at h
    · cases h
      exact lookupF_setF_ne _ _ _ _ hk
    · split at h
      · cases h
        exact lookupF_setF_ne _ _ _ _ hk
      · exact Except.noConfusion h

lemma includeStep_lookup_ne (b b' : Body) (k : String)
    (h : includeStep b = .ok b') (hk : k ≠ "include") :
    lookupF b' k = lookupF b k := by
  unfold includeStep at h
  split at h
  · cases h
    exact lookupF_setF_ne _ _ _ _ hk
  · cases h
    exact lookupF_setF_ne _ _ _ _ hk
  · split at h
    · cases h
      rfl
    · cases h
      exact lookupF_setF_ne _ _ _ _ hk
  · exact Except.noConfusion h

lemma forcedFlags_lookup_ne (body : Body) (modelNew : String) (k : String)
    (h1 : k ≠ "model") (h2 : k ≠ "store") (h3 : k ≠ "stream") :
    lookupF (forcedFlags body modelNew) k = lookupF body k := by
  unfold forcedFlags
  rw [lookupF_setF_ne _ _ _ _ h3, lookupF_setF_ne _ _ _ _ h2, lookupF_setF_ne _ _ _ _ h1]

/-- Anatomy of a successful transform: the intermediate bodies and the two
returned components. -/
lemma transform_ok_elim (body out : Body) (ws : Bool)
    (h : transformRequestBody body = .ok (out, ws)) :
    ∃ modelNew b5 b6,
      normalizeModelField (lookupF body "model") = .ok modelNew ∧
      reasoningStep (inputStep (forcedFlags body modelNew)) = .ok b5 ∧
      includeStep b5 = .ok b6 ∧
      out = deleteF (deleteF b6 "max_output_tokens") "max_completion_tokens" ∧
      ws = isTrueField body "stream" := by
  unfold transformRequestBody at h
  split at h
  · exact Except.noConfusion h
  next modelNew hm =>
    split at h
    · exact Except.noConfusion h
    next b5 hr =>
      split at h
      · exact Except.noConfusion h
      next b6 hi =>
        injection h with h1
        rw [Prod.mk.injEq] at h1
        obtain ⟨hout, hws⟩ := h1
        exact ⟨modelNew, b5, b6, hm, hr, hi, hout.symm, hws.symm⟩

end CodexProxy

namespace CodexProxy

/-- C4: For every input body on which the transform returns, the output body
has `store = false` and `stream = true` whatever the input carried for those
fields, and the returned `wasStreaming` flag is `true` exactly when the
input's `stream` field was the boolean `true` (false when absent or any
other value). -/
theorem c4_transform_flags (body out : Body) (ws : Bool)
    (h : transformRequestBody body = .ok (out, ws)) :
    lookupF out "store" = some (.bool false) ∧
    lookupF out "stream" = some (.bool true) ∧
    (ws = true ↔ lookupF body "stream" = some (.bool true)) := by
  obtain ⟨m, b5, b6, hm, hr, hi, hout, hws⟩ := transform_ok_elim body out ws h
  subst hout hws
  refine ⟨?_, ?_, isTrueField_iff body "stream"⟩
  · rw [lookupF_deleteF_ne _ _ _ (by decide), lookupF_deleteF_ne _ _ _ (by decide),
        includeStep_lookup_ne _ _ _ hi (by decide),
        reasoningStep_lookup_ne _ _ _ hr (by decide),
        inputStep_lookup_ne _ _ (by decide)]
    unfold forcedFlags
    rw [lookupF_setF_ne _ _ _ _ (by decide), lookupF_setF_self]
  · rw [lookupF_deleteF_ne _ _ _ (by decide), lookupF_deleteF_ne _ _ _ (by decide),
        includeStep_lookup_ne _ _ _ hi (by decide),
        reasoningStep_lookup_ne _ _ _ hr (by decide),
        inputStep_lookup_ne _ _ (by decide)]
    unfold forcedFlags
    rw [lookupF_setF_self]

/-- C4 witness: the concrete streaming body. -/
theorem c4_transform_flags_witness :
    lookupF bodyStreamOut "store" = some (.bool false) ∧
    lookupF bodyStreamOut "stream" = some (.bool true) ∧
    (true = true ↔ lookupF bodyStream "stream" = some (.bool true)) :=
  c4_transform_flags bodyStream bodyStreamOut true rfl

/-- C9: the transform only touches the eight recognized top-level keys —
any other key holds an unchanged value in the output — and within an input
item the id-stripping map leaves every field other than `id` unchanged. -/
theorem c9_frame :
    (∀ (body out : Body) (ws : Bool) (k : String),
        transformRequestBody body = .ok (out, ws) → k ∉ recognizedKeys →
        lookupF out k = lookupF body k)
    ∧ (∀ (v : JVal) (k : String), k ≠ "id" → objField (stripId v) k = objField v k) := by
  constructor
  · intro body out ws k h hk
    simp only [recognizedKeys, List.mem_cons, List.not_mem_nil, or_false, not_or] at hk
    obtain ⟨k1, k2, k3, k4, k5, k6, k7, k8⟩ := hk
    obtain ⟨m, b5, b6, hm, hr, hi, hout, hws⟩ := transform_ok_elim body out ws h
    subst hout
    rw [lookupF_deleteF_ne _ _ _ k8, lookupF_deleteF_ne _ _ _ k7,
        includeStep_lookup_ne _ _ _ hi k6,
        reasoningStep_lookup_ne _ _ _ hr k5,
        inputStep_lookup_ne _ _ k4,
        forcedFlags_lookup_ne _ _ _ k1 k2 k3]
  · intro v k hk
    cases v with
    | obj fs =>
      by_cases ht : jsTruthyOpt (lookupF fs "id")
      · simp only [stripId, ht, if_true, objField]
        exact lookupF_deleteF_ne _ _ _ hk
      · simp [stripId, ht]
    | null => rfl
    | bool b => rfl
    | num n => rfl
    | str s => rfl
    | arr xs => rfl

/-- C9 witness: an unrecognized key and a non-id item field pass through. -/
theorem c9_frame_witness :
    lookupF bodyStreamOut "instructions" = lookupF bodyStream "instructions" ∧
    objField (stripId (.obj [("id", .str "b"), ("text", .str "x")])) "text"
      = objField (.obj [("id", .str "b"), ("text", .str "x")]) "text" :=
  ⟨c9_frame.1 bodyStream bodyStreamOut true "instructions" rfl (by decide),
   c9_frame.2 (.obj [("id", .str "b"), ("text", .str "x")]) "text" (by decide)⟩

/-- C5 counterexample: an input item whose `id` is the falsy empty string
keeps its `id` field through the transform, so the claim's unconditional
"removing its id field" is false on the code. -/
theorem c5_counterexample :
    transformRequestBody bodyEmptyId = .ok (bodyEmptyIdOut, false)
    ∧ lookupF bodyEmptyIdOut "input"
        = some (.arr [.obj [("type", .str "message"), ("id", .str "")]])
    ∧ objField (.obj [("type", .str "message"), ("id", .str "")]) "id" = some (.str "")
    ∧ some (JVal.str "") ≠ (none : Option JVal) :=
  ⟨rfl, rfl, rfl, by simp⟩

/-- C5 (amended): when `input` is an array, the transformed `input` is the
filter that drops `item_reference` items and, for each remaining item whose
`id` is truthy, removes the `id` key, preserving every other field and the
order; items with a falsy or absent `id` are kept unchanged.  The claim's
concrete example transforms exactly as stated. -/
theorem c5_input_filtering :
    (∀ (body out : Body) (ws : Bool) (xs : List JVal),
        transformRequestBody body = .ok (out, ws) →
        lookupF body "input" = some (.arr xs) →
        lookupF out "input" = some (.arr (filterInput xs)))
    ∧ (∀ xs : List JVal,
        filterInput xs = (xs.filter (fun it => !isItemRef it)).map stripId)
    ∧ (∀ fs : List (String × JVal),
        stripId (.obj fs)
          = if jsTruthyOpt (lookupF fs "id") then .obj (deleteF fs "id") else .obj fs)
    ∧ filterInput exInput = [.obj [("type", .str "message"), ("text", .str "x")]] := by
  refine ⟨?_, fun xs => rfl, fun fs => rfl, rfl⟩
  intro body out ws xs h hin
  obtain ⟨m, b5, b6, hm, hr, hi, hout, hws⟩ := transform_ok_elim body out ws h
  subst hout
  rw [lookupF_deleteF_ne _ _ _ (by decide), lookupF_deleteF_ne _ _ _ (by decide),
      includeStep_lookup_ne _ _ _ hi (by decide),
      reasoningStep_lookup_ne _ _ _ hr (by decide)]
  exact inputStep_lookup_arr _ xs
    (by rw [forcedFlags_lookup_ne _ _ _ (by decide) (by decide) (by decide)]; exact hin)

/-- C5 witness: the claim's two-item example run through the transform. -/
theorem c5_input_filtering_witness :
    lookupF bodyExInputOut "input" = some (.arr (filterInput exInput)) :=
  c5_input_filtering.1 bodyExInput bodyExInputOut false exInput rfl rfl

/-- C6: an upstream 404 is answered with the body read as text ("" on a read
failure or missing body), remapped to 429 exactly when the lowercased body
contains one of the four fixed usage-limit markers, and left at 404 with the
body unchanged otherwise. -/
theorem c6_usage_limit_remap (jparse : String → Option JVal) (u : Upstream)
    (ws : Bool) (h : u.status = 404) :
    handleUpstreamResponse jparse u ws
      = .reply (if isUsageLimitBody (upstreamText u) then 429 else 404)
          "application/json" (upstreamText u)
    ∧ (∀ b : String, isUsageLimitBody b = true ↔
        (containsSub (lowerL b.toList) "usage_limit_reached".toList = true ∨
         containsSub (lowerL b.toList) "usage_not_included".toList = true ∨
         containsSub (lowerL b.toList) "rate_limit_exceeded".toList = true ∨
         containsSub (lowerL b.toList) "usage limit".toList = true))
    ∧ isUsageLimitBody "something usage_limit_reached here" = true
    ∧ isUsageLimitBody "plain not found" = false := by
  refine ⟨?_, ?_, by decide, by decide⟩
  · simp [handleUpstreamResponse, h]
  · intro b
    simp [isUsageLimitBody, Bool.or_eq_true, or_assoc]

/-- C6 witness: a concrete 404 carrying a marker. -/
theorem c6_usage_limit_remap_witness :
    handleUpstreamResponse jparse0 u404usage false
      = .reply (if isUsageLimitBody (upstreamText u404usage) then 429 else 404)
          "application/json" (upstreamText u404usage) :=
  (c6_usage_limit_remap jparse0 u404usage false rfl).1

/-- C7: `shouldRefreshToken` is exactly the millisecond-integer comparison
`expires - 60000 < now`; a state expiring 30 s from now must refresh, one
expiring 90 s from now must not. -/
theorem c7_refresh_margin (s s30 s90 : TokenState) (now : Int) :
    (shouldRefreshToken s now = true ↔ s.expires - 60000 < now)
    ∧ (s30.expires = now + 30000 → shouldRefreshToken s30 now = true)
    ∧ (s90.expires = now + 90000 → shouldRefreshToken s90 now = false) := by
  refine ⟨?_, fun h => ?_, fun h => ?_⟩
  · unfold shouldRefreshToken
    exact decide_eq_true_iff
  · unfold shouldRefreshToken
    rw [h]
    exact decide_eq_true (by omega)
  · unfold shouldRefreshToken
    rw [h]
    exact decide_eq_false (by omega)

/-- C7 witness: the two concrete margins at `now = 1000000`. -/
theorem c7_refresh_margin_witness :
    shouldRefreshToken ts30 1000000 = true ∧ shouldRefreshToken ts90 1000000 = false :=
  ⟨(c7_refresh_margin ts30 ts30 ts90 1000000).2.1 rfl,
   (c7_refresh_margin ts30 ts30 ts90 1000000).2.2 rfl⟩

/-- A successful relay fetch re-derives the account id from the token it
stores, so the binding invariant holds on its result. -/
lemma fetchFromRelay_ok_inv (payloadOf : String → Option JWTPayload)
    (s s' : TokenState) (r : RelayResponse)
    (h : fetchFromRelay payloadOf s r = .ok s') : accountInvariant payloadOf s' := by
  unfold fetchFromRelay at h
  split at h
  · exact Except.noConfusion h
  · split at h
    · split at h
      · exact Except.noConfusion h
      · split at h
        · next aid hga =>
            cases h
            unfold accountInvariant
            simpa using hga
        · exact Except.noConfusion h
    · exact Except.noConfusion h

/-- C1 (amended): the binding invariant — stored account id equals the id
derived from the stored access token — is established by a successful
`loadTokens`, holds after every successful `fetchFromRelay`, and is
preserved by every successful `ensureValidToken` (both the relay and the
auth-server path re-derive it whenever they replace the token). -/
theorem c1_invariant_on_success (payloadOf : String → Option JWTPayload) :
    (∀ (a r : String) (s : TokenState),
        loadTokens payloadOf a r = .ok s → accountInvariant payloadOf s)
    ∧ (∀ (s : TokenState) (now : Int) (rr : RelayResponse)
          (ar : Option AuthServerResponse) (s' : TokenState),
        accountInvariant payloadOf s →
        ensureValidToken payloadOf s now rr ar = .ok s' → accountInvariant payloadOf s')
    ∧ (∀ (s : TokenState) (rr : RelayResponse) (s' : TokenState),
        fetchFromRelay payloadOf s rr = .ok s' → accountInvariant payloadOf s') := by
  refine ⟨?_, ?_, fun s rr s' h => fetchFromRelay_ok_inv payloadOf s s' rr h⟩
  · intro a r s h
    unfold loadTokens at h
    split at h
    · exact Except.noConfusion h
    · next aid hga =>
        cases h
        unfold accountInvariant
        simpa using hga
  · intro s now rr ar s' hInv h
    unfold ensureValidToken at h
    split at h
    · cases h
      exact hInv
    · split at h
      · exact fetchFromRelay_ok_inv payloadOf s s' rr h
      · split at h
        · exact Except.noConfusion h
        · split at h
          · next aid hga =>
              cases h
              unfold accountInvariant
              simpa using hga
          · exact Except.noConfusion h

/-- C1 counterexample: from a legitimately constructed state, a relay that
hands out a token carrying no account claim makes `fetchFromRelay` throw
*after* storing the new access token, leaving behind a state whose stored
account id is stale for the stored token — the invariant is violated in a
state the operation leaves behind. -/
theorem c1_counterexample :
    loadTokens testPayloadOf "h.payloadA.sig" "r" = .ok tsGood
    ∧ fetchFromRelay testPayloadOf tsRelay
        { ok := true, accessTokenField := some "garbage", expiresAtField := some 99 }
        = .error (accountIdError, tsBad)
    ∧ tsBad.accessToken = "garbage" ∧ tsBad.accountId = "acct-1"
    ∧ ¬ accountInvariant testPayloadOf tsBad := by
  refine ⟨by decide, by decide, rfl, rfl, by decide⟩

/-- C1 witness: the invariant after a concrete load and a concrete
successful auth-server refresh. -/
theorem c1_invariant_on_success_witness :
    accountInvariant testPayloadOf tsGood ∧ accountInvariant testPayloadOf tsRefreshed :=
  ⟨(c1_invariant_on_success testPayloadOf).1 "h.payloadA.sig" "r" tsGood (by decide),
   (c1_invariant_on_success testPayloadOf).2.1 tsGood 3000000
     { ok := true, accessTokenField := none, expiresAtField := none }
     (some { ok := true, accessTokenField := some "h.payloadA.sig",
             refreshTokenField := some "r2", expiresInField := some 3600 })
     tsRefreshed (by decide) (by decide)⟩

/-- C3 (amended): any request whose method is not POST or whose URL does not
*start with* `/v1/responses` is answered 404 `{"error":"Not found"}` whatever
the body, token state and upstream would have been — the rejection precedes
the token check and the transform. -/
theorem c3_route_gate (jparse : String → Option JVal)
    (m u : Option String) (pb : Option Body) (tok : Bool) (ups : Option Upstream)
    (h : ¬ (m = some "POST" ∧ urlHasRoute u = true)) :
    handleRequest jparse
      { method := m, url := u, parsedBody := pb, tokenOk := tok, upstream := ups }
      = notFoundReply := by
  have hc : m ≠ some "POST" ∨ urlHasRoute u = false := by
    by_cases hm : m = some "POST"
    · right
      rcases hu : urlHasRoute u with _ | _
      · rfl
      · exact absurd ⟨hm, hu⟩ h
    · exact Or.inl hm
  unfold handleRequest
  rw [if_pos hc]
  rfl

/-- C3 counterexample: `POST /v1/responses/extra` — a URL whose path is not
exactly `/v1/responses` — passes the `startsWith` gate and is forwarded (here
answered by the upstream's 500), so the exactly-one-path claim is false. -/
theorem c3_counterexample :
    handleRequest jparse0 ctxExtra = .reply 500 "application/json" "boom"
    ∧ handleRequest jparse0 ctxExtra ≠ notFoundReply :=
  ⟨by decide, by decide⟩

/-- C3 witness: `GET /v1/responses` is rejected with the 404 reply. -/
theorem c3_route_gate_witness :
    handleRequest jparse0
      { method := some "GET", url := some "/v1/responses",
        parsedBody := some [("model", .str "gpt-5.1")], tokenOk := true,
        upstream := some { status := 200, body := some (.ok "x") } }
      = notFoundReply :=
  c3_route_gate jparse0 (some "GET") (some "/v1/responses")
    (some [("model", .str "gpt-5.1")]) true
    (some { status := 200, body := some (.ok "x") }) (by decide)

lemma splitOnChar_ne_nil (sep : Char) (l : List Char) : splitOnChar sep l ≠ [] := by
  induction l with
  | nil => simp [splitOnChar]
  | cons c cs ih =>
    unfold splitOnChar
    by_cases h : c = sep
    · simp [h]
    · rw [if_neg h]
      rcases hs : splitOnChar sep cs with _ | ⟨g, gs⟩
      · exact absurd hs ih
      · simp

lemma splitOnChar_not_mem (sep : Char) (l : List Char) (h : sep ∉ l) :
    splitOnChar sep l = [l] := by
  induction l with
  | nil => rfl
  | cons c cs ih =>
    have hc : c ≠ sep := fun he => h (by rw [he]; exact List.mem_cons_self _ _)
    have hcs : sep ∉ cs := fun hm => h (List.mem_cons_of_mem c hm)
    unfold splitOnChar
    rw [if_neg hc, ih hcs]

lemma splitOnChar_append (sep : Char) (s : List Char) (hs : sep ∉ s) (p : List Char) :
    splitOnChar sep (p ++ sep :: s) = splitOnChar sep p ++ [s] := by
  induction p with
  | nil => simp [splitOnChar, splitOnChar_not_mem sep s hs]
  | cons c p ih =>
    by_cases h : c = sep
    · simp [splitOnChar, h, ih]
    · rcases hp : splitOnChar sep p with _ | ⟨g, gs⟩
      · exact absurd hp (splitOnChar_ne_nil sep p)
      · rw [List.cons_append]
        unfold splitOnChar
        rw [if_neg h, if_neg h, ih, hp]
        simp

/-- C8: stripping the provider segment — for any prefix `p` and any nonempty
slash-free identifier `s`, normalizing `p ++ "/" ++ s` equals normalizing
`s`; in particular `vendor/gpt-5.1-codex-high` and `gpt-5.1-codex-high` both
normalize to `gpt-5.1-codex`. -/
theorem c8_prefix_strip (p s : List Char) (h1 : s ≠ []) (h2 : '/' ∉ s) :
    normalizeModel (some (p ++ '/' :: s)) = normalizeModel (some s)
    ∧ normalizeModel (some "vendor/gpt-5.1-codex-high".toList) = "gpt-5.1-codex".toList
    ∧ normalizeModel (some "gpt-5.1-codex-high".toList) = "gpt-5.1-codex".toList := by
  refine ⟨?_, by decide, by decide⟩
  have hmE : ¬ ((p ++ '/' :: s).isEmpty = true) := by simp
  have hsE : ¬ (s.isEmpty = true) := by simpa using h1
  have hcont : (p ++ '/' :: s).contains '/' = true :=
    List.elem_iff.mpr (List.mem_append_right p (List.mem_cons_self '/' s))
  have hscont : ¬ (s.contains '/' = true) := fun hc => h2 (List.elem_iff.mp hc)
  simp only [normalizeModel]
  rw [if_neg hmE, if_neg hsE, if_pos hcont, if_neg hscont]
  unfold lastPart
  rw [splitOnChar_append '/' s h2 p, List.getLastD_concat]

/-- C8 witness: the claim's concrete prefix-stripping instance. -/
theorem c8_prefix_strip_witness :
    normalizeModel (some ("vendor".toList ++ '/' :: "gpt-5.1-codex-high".toList))
      = normalizeModel (some "gpt-5.1-codex-high".toList) :=
  (c8_prefix_strip "vendor".toList "gpt-5.1-codex-high".toList
    (by decide) (by decide)).1

/-- The early-returning line walk of the source equals the spec-side
filterMap-then-find?: the first parsed `data: ` event with a terminal type,
projected to its `response` property. -/
lemma parseSseLines_eq (jparse : String → Option JVal) (lines : List (List Char)) :
    parseSseLines jparse lines
      = ((lines.filterMap (fun line =>
            if dataMarker.isPrefixOf line then jparse (line.drop 6).asString
            else none)).find? isTerminalEvent).map
          (fun d => objField d "response") := by
  induction lines with
  | nil => rfl
  | cons line rest ih =>
    by_cases hp : dataMarker.isPrefixOf line
    · rcases hj : jparse (line.drop 6).asString with _ | data
      · simp only [parseSseLines, hp, if_true, hj, List.filterMap_cons]
        exact ih
      · by_cases ht : isTerminalEvent data
        · simp only [parseSseLines, hp, if_true, hj, ht, List.filterMap_cons]
          rw [List.find?_cons_of_pos _ ht]
          rfl
        · simp only [parseSseLines, hp, if_true, hj, ht, List.filterMap_cons]
          rw [List.find?_cons_of_neg _ ht]
          simpa [ht] using ih
    · simp only [parseSseLines, hp, if_false, List.filterMap_cons]
      simpa [hp] using ih

/-- `parseSseStream` in terms of `specFirstTerminal`. -/
lemma parseSseStream_eq_spec (jparse : String → Option JVal) (t : String) :
    parseSseStream jparse t
      = (specFirstTerminal jparse t).map (fun d => objField d "response") := by
  unfold parseSseStream specFirstTerminal specParsedEvents
  exact parseSseLines_eq jparse (splitOnChar '\n' t.toList)

/-- A 2xx upstream with `wasStreaming = false` goes to the buffering
converter. -/
lemma handleUpstream_buffering (jparse : String → Option JVal) (u : Upstream)
    (h1 : u.isOk = true) :
    handleUpstreamResponse jparse u false = convertSseToJson jparse u := by
  have h404 : ¬ (u.status = 404) := by
    intro he
    unfold Upstream.isOk at h1
    rw [he] at h1
    exact absurd h1 (by decide)
  unfold handleUpstreamResponse
  rw [if_neg h404, if_neg (by simp [h1]), if_neg (by simp)]

/-- C2 (amended): in buffering mode (2xx upstream, `wasStreaming` false) the
handler behaves exactly as the spec-side converter: no body → 502 structured
error; read failure → 502; otherwise, if the first successfully parsed
`data: ` event with a terminal type exists and carries a present, non-null
`response`, reply 200 with exactly that payload as one JSON document; in
every other case (no terminal event, or its `response` absent or null) reply
200 with the raw buffered text and the event-stream content type. -/
theorem c2_buffering_conversion (jparse : String → Option JVal) (u : Upstream)
    (ws : Bool) (h1 : u.isOk = true) (h2 : ws = false) :
    handleUpstreamResponse jparse u ws = specConvert jparse u := by
  subst h2
  rw [handleUpstream_buffering jparse u h1]
  unfold convertSseToJson specConvert
  rcases hb : u.body with _ | br
  · simp only [hb]
  · rcases br with t | _
    · simp only [hb]
      rw [parseSseStream_eq_spec]
      rcases hf : specFirstTerminal jparse t with _ | d
      · simp [hf]
      · simp only [hf, Option.map_some']
        rcases hr : objField d "response" with _ | v
        · simp [hr]
        · simp only [hr]
    · simp only [hb]

/-- C2 counterexample: a buffered stream whose first (and only) terminal
event has `"response": null`.  The claim as stated demands a 200 JSON reply
with that event's serialized `response` payload; the code instead falls back
to the raw event-stream text. -/
theorem c2_counterexample :
    handleUpstreamResponse jparseT { status := 200, body := some (.ok sseNullOnly) } false
      = .reply 200 "text/event-stream; charset=utf-8" sseNullOnly
    ∧ specFirstTerminal jparseT sseNullOnly
        = some (.obj [("type", .str "response.done"), ("response", .null)])
    ∧ (.reply 200 "text/event-stream; charset=utf-8" sseNullOnly : DownstreamOut)
        ≠ .reply 200 "application/json; charset=utf-8" (stringifyJ .null) := by
  refine ⟨by decide, rfl, ?_⟩
  intro he
  injection he with hs hc hb
  exact absurd hc (by decide)

/-- C2 witness: a concrete 2xx buffering-mode run. -/
theorem c2_buffering_conversion_witness :
    handleUpstreamResponse jparse0 { status := 200, body := some (.ok "hello") } false
      = specConvert jparse0 { status := 200, body := some (.ok "hello") } :=
  c2_buffering_conversion jparse0 { status := 200, body := some (.ok "hello") }
    false (by decide) rfl

/-- C10: in buffering mode, whenever the first terminal event of the
buffered text has an absent or null `response` field, the handler replies
200 with the raw text and the event-stream content type — no JSON document
is emitted for it, even if a later terminal event carries a non-null
response. -/
theorem c10_null_response_fallback (jparse : String → Option JVal) (u : Upstream)
    (t : String) (d : JVal) (h1 : u.isOk = true) (hb : u.body = some (.ok t))
    (hf : specFirstTerminal jparse t = some d)
    (hr : objField d "response" = none ∨ objField d "response" = some .null) :
    handleUpstreamResponse jparse u false
      = .reply 200 "text/event-stream; charset=utf-8" t := by
  rw [handleUpstream_buffering jparse u h1]
  unfold convertSseToJson
  simp only [hb]
  rw [parseSseStream_eq_spec, hf]
  simp only [Option.map_some']
  rcases hr with hr | hr
  · simp [hr]
  · simp [hr]

/-- C10 witness: a stream whose first terminal event has a null `response`
and whose second terminal event carries a real payload still degrades to the
raw text. -/
theorem c10_null_response_fallback_witness :
    handleUpstreamResponse jparseT { status := 200, body := some (.ok sseNullThenGood) } false
      = .reply 200 "text/event-stream; charset=utf-8" sseNullThenGood :=
  c10_null_response_fallback jparseT
    { status := 200, body := some (.ok sseNullThenGood) } sseNullThenGood
    (.obj [("type", .str "response.done"), ("response", .null)])
    (by decide) rfl rfl (Or.inr rfl)

end CodexProxy
